import Mathlib

/-!
Verification of the structured-value codec, error classifier, OHLCV row mapper
and request dispatcher of a gRPC micro-service wrapping the ccxt trading library.

Shallow embedding notes:
* JS numbers appearing in the codec and the OHLCV mapper are never subjected to
  arithmetic other than `Math.trunc`; we model them as rationals (`Rat`), which
  are finite by construction, matching the spec's restriction to values without
  non-finite numbers.
* `google.protobuf.Value` messages (`ValueMsg`) are records of optional fields,
  all of which may be simultaneously populated at runtime; `listValue` may hold
  either a bare array of values, a `ListValue` wrapper message with an optional
  `values` field, or some other shape (decoded as the empty list).
-/

namespace CcxtMicro

/-- JSON-compatible value (`src/types.ts` `JsonValue`): null, boolean, number,
string, ordered array, or string-keyed object (insertion-ordered entry list). -/
inductive JsonValue : Type where
  | null : JsonValue
  | bool : Bool → JsonValue
  | num : Rat → JsonValue
  | str : String → JsonValue
  | arr : List JsonValue → JsonValue
  | obj : List (String × JsonValue) → JsonValue
deriving Repr

mutual
/-- Wire message `google.protobuf.Value` as observed at runtime
(`nullValue`, `numberValue`, `stringValue`, `boolValue`, `structValue`,
`listValue`, each independently present or absent). -/
inductive ValueMsg : Type where
  | mk : Option Nat → Option Rat → Option String → Option Bool →
         Option StructMsg → Option ListRep → ValueMsg
deriving Repr

/-- Wire message `google.protobuf.Struct`: an optional `fields` record whose entries
may individually be `undefined`. -/
inductive StructMsg : Type where
  | mk : Option (List (String × Option ValueMsg)) → StructMsg
deriving Repr

/-- The runtime shape of a populated `listValue` field: a bare array of values,
a `ListValue` wrapper message exposing an optional `values` field, or any other
value (neither an array nor an object with a `values` key). -/
inductive ListRep : Type where
  | bare : List ValueMsg → ListRep
  | wrapper : Option (List ValueMsg) → ListRep
  | other : ListRep
deriving Repr
end

mutual
/-- Function `jsonToValue` (`src/utils.ts` lines 23-42): plain JSON → protobuf `Value`.
The TS branches on `typeof`; the branches correspond one-to-one to the
`JsonValue` constructors (the `undefined` input case coincides with `null`). -/
def jsonToValue : JsonValue → ValueMsg
  | .null => .mk (some 0) none none none none none
  | .str s => .mk none none (some s) none none none
  | .num q => .mk none (some q) none none none none
  | .bool b => .mk none none none (some b) none none
  | .arr xs =>
      .mk none none none none none (some (.bare (jsonListToValues xs)))
  | .obj fs =>
      .mk none none none none (some (.mk (some (jsonFieldsToValues fs)))) none

/-- Embeds `j.map((e) => jsonToValue(e))` on the elements of an array. -/
def jsonListToValues : List JsonValue → List ValueMsg
  | [] => []
  | x :: xs => jsonToValue x :: jsonListToValues xs

/-- iteration over `Object.entries(j)` setting `fields[k] = jsonToValue(v)`. -/
def jsonFieldsToValues : List (String × JsonValue) → List (String × Option ValueMsg)
  | [] => []
  | (k, v) :: rest => (k, some (jsonToValue v)) :: jsonFieldsToValues rest
end

mutual
/-- Function `valueMsgToPlain` (`src/utils.ts` lines 45-69): protobuf `Value` → plain
JSON, testing the tag fields for definedness in source order. -/
def valueMsgToPlain : ValueMsg → JsonValue
  | .mk nv numv sv bv stv lv =>
    match nv with
    | some _ => .null
    | none =>
      match numv with
      | some q => .num q
      | none =>
        match sv with
        | some s => .str s
        | none =>
          match bv with
          | some b => .bool b
          | none =>
            match stv with
            | some s => structMsgToPlain s
            | none =>
              match lv with
              | some (.bare vs) => .arr (valuesToPlain vs)
              | some (.wrapper (some vs)) => .arr (valuesToPlain vs)
              | some (.wrapper none) => .arr []
              | some .other => .arr []
              | none => .null

/-- Embeds `arr.map((x) => valueMsgToPlain(x))` on a list of wire values. -/
def valuesToPlain : List ValueMsg → List JsonValue
  | [] => []
  | v :: vs => valueMsgToPlain v :: valuesToPlain vs

/-- Function `structMsgToPlain` (`src/utils.ts` lines 72-79): `fields ?? {}`, entries
whose value is `undefined` are skipped. -/
def structMsgToPlain : StructMsg → JsonValue
  | .mk (some fields) => .obj (fieldsToPlain fields)
  | .mk none => .obj []

/-- iteration over `Object.entries(fields)` skipping `undefined` values. -/
def fieldsToPlain : List (String × Option ValueMsg) → List (String × JsonValue)
  | [] => []
  | (_, none) :: rest => fieldsToPlain rest
  | (k, some v) :: rest => (k, valueMsgToPlain v) :: fieldsToPlain rest
end

mutual
theorem valueMsg_roundtrip_aux : (v : JsonValue) → valueMsgToPlain (jsonToValue v) = v
  | .null => rfl
  | .bool _ => rfl
  | .num _ => rfl
  | .str _ => rfl
  | .arr xs => by
      simp [jsonToValue, valueMsgToPlain, valuesList_roundtrip_aux xs]
  | .obj fs => by
      simp [jsonToValue, valueMsgToPlain, structMsgToPlain, fieldsList_roundtrip_aux fs]

theorem valuesList_roundtrip_aux :
    (xs : List JsonValue) → valuesToPlain (jsonListToValues xs) = xs
  | [] => rfl
  | x :: xs => by
      simp [jsonListToValues, valuesToPlain, valueMsg_roundtrip_aux x,
        valuesList_roundtrip_aux xs]

theorem fieldsList_roundtrip_aux :
    (fs : List (String × JsonValue)) → fieldsToPlain (jsonFieldsToValues fs) = fs
  | [] => rfl
  | (k, v) :: rest => by
      simp [jsonFieldsToValues, fieldsToPlain, valueMsg_roundtrip_aux v,
        fieldsList_roundtrip_aux rest]
end

/- ------------------------------ Error classifier ------------------------------ -/

/-- A JS field value as the classifier observes it after narrowing:
either a string or some defined non-string value. -/
inductive FieldVal : Type where
  | str : String → FieldVal
  | nonString : FieldVal
deriving Repr, DecidableEq

/-- The classifier's view of an arbitrary thrown value (`err: unknown`):
`record` when `typeof err === 'object' && err !== null` (with the optional
`name`/`message` fields), otherwise `nonRecord` (bare strings, numbers,
functions, `null`, `undefined`, ...). -/
inductive ErrVal : Type where
  | record : Option FieldVal → Option FieldVal → ErrVal
  | nonRecord : ErrVal
deriving Repr, DecidableEq

/-- Does the character list `hay` start with `needle`? -/
def charsStartWith : List Char → List Char → Bool
  | [], _ => true
  | _ :: _, [] => false
  | a :: as, b :: bs => a == b && charsStartWith as bs

/-- Does the character list `hay` contain `needle` as a contiguous run? -/
def charsContain (needle : List Char) : List Char → Bool
  | [] => charsStartWith needle []
  | b :: bs => charsStartWith needle (b :: bs) || charsContain needle bs

/-- JS `hay.includes(needle)`: substring containment. -/
def strContains (hay needle : String) : Bool :=
  charsContain needle.data hay.data

/-- The `{code, message}` pair produced by the classifier (gRPC status codes
use the standard numeric enum: UNKNOWN 2, INVALID_ARGUMENT 3, NOT_FOUND 5,
PERMISSION_DENIED 7, FAILED_PRECONDITION 9, UNIMPLEMENTED 12, UNAVAILABLE 14,
UNAUTHENTICATED 16). -/
structure ErrorOutcome where
  code : Nat
  message : String
deriving Repr, DecidableEq

/-- Extraction of `nameStr` (`src/utils.ts` lines 112-113): destructure `name` when the
thrown value is object-like, keep it when string-typed, else `''`. -/
def extractNameStr (err : ErrVal) : String :=
  match err with
  | .record (some (.str s)) _ => s
  | _ => ""

/-- Extraction of `msgStr` (`src/utils.ts` lines 112, 114): destructure `message` when the
thrown value is object-like, keep it when string-typed, else the literal
`'Unknown error'`. -/
def extractMsgStr (err : ErrVal) : String :=
  match err with
  | .record _ (some (.str s)) => s
  | _ => "Unknown error"

/-- Function `mapCcxtErrorToGrpc` (`src/utils.ts` lines 111-128): narrow the thrown
value, extract `nameStr`/`msgStr`, then the ordered case-sensitive substring
chain. -/
def mapCcxtErrorToGrpc (err : ErrVal) : ErrorOutcome :=
  let nameStr : String := extractNameStr err
  let msgStr : String := extractMsgStr err
  if strContains nameStr "Authentication" then ⟨16, msgStr⟩
  else if strContains nameStr "Permission" then ⟨7, msgStr⟩
  else if strContains nameStr "Invalid" then ⟨3, msgStr⟩
  else if strContains nameStr "NotSupported" || strContains nameStr "NotImplemented" then
    ⟨12, msgStr⟩
  else if strContains nameStr "OrderNotFound" then ⟨5, msgStr⟩
  else if strContains nameStr "InsufficientFunds" then ⟨9, msgStr⟩
  else if strContains nameStr "DDoS" || strContains nameStr "Network" ||
      strContains nameStr "RequestTimeout" then ⟨14, msgStr⟩
  else ⟨2, msgStr⟩

/-- Spec-side rendering of the classification table (§4.3), for the refinement
comparison: the ordered rule list, each rule a set of substring patterns with
its status code. -/
def specRules : List (List String × Nat) :=
  [(["Authentication"], 16),
   (["Permission"], 7),
   (["Invalid"], 3),
   (["NotSupported", "NotImplemented"], 12),
   (["OrderNotFound"], 5),
   (["InsufficientFunds"], 9),
   (["DDoS", "Network", "RequestTimeout"], 14)]

/-- Spec-side rendering of the first-match-wins policy: the earliest rule one
of whose patterns occurs in the name decides the code, otherwise UNKNOWN (2). -/
def specClassifyCode (name : String) : Nat :=
  match specRules.find? (fun r => r.1.any (fun p => strContains name p)) with
  | some r => r.2
  | none => 2

/- ------------------------------ OHLCV row mapper ------------------------------ -/

/-- Candle record emitted to gRPC (`src/types.ts` `OhlcvEntry`); `open` is a
Lean keyword, hence the field name `open_`. -/
structure OhlcvEntry where
  timestamp : Int
  open_ : Rat
  high : Rat
  low : Rat
  close : Rat
  volume : Rat
deriving Repr, DecidableEq

/-- JS `Math.trunc` on a finite number: truncation toward zero. -/
def mathTrunc (q : Rat) : Int := if 0 ≤ q then ⌊q⌋ else ⌈q⌉

/-- Function `toOhlcv` (`src/utils.ts` lines 130-139). A runtime-absent `entries`
argument is `none` (the `entries ?? []` guard); each row is a list of numbers;
a missing position (`c[i] ?? 0`) defaults to 0; `Number(...)` applied to a
number is the identity. -/
def toOhlcv (entries : Option (List (List Rat))) : List OhlcvEntry :=
  (entries.getD []).map (fun c =>
    { timestamp := mathTrunc ((c.get? 0).getD 0)
      open_ := (c.get? 1).getD 0
      high := (c.get? 2).getD 0
      low := (c.get? 3).getD 0
      close := (c.get? 4).getD 0
      volume := (c.get? 5).getD 0 })

/- ------------------------------ Request dispatcher ------------------------------ -/

/-- Request block `ExchangeConfig` (`src/types.ts`) as received at runtime: every field may
be absent on the wire. -/
structure ExchangeConfig where
  exchange : Option String
  enable_rate_limit : Option Bool
  default_type : Option String
  subaccount : Option String

/-- Request block `Credentials` (`src/types.ts`): all fields optional. -/
structure Credentials where
  api_key : Option String
  secret : Option String
  password : Option String
  uid : Option String
  login : Option String
  token : Option String
  twofa : Option String

/-- Options object passed to the ccxt constructor (`src/exchangeFactory.ts`
`CcxtOptions`), as assembled by `createExchange`; `options` holds the optional
`defaultType` entry. -/
structure CcxtOptions where
  enableRateLimit : Bool
  options : List (String × String)
  subaccount : Option String
  apiKey : Option String
  secret : Option String
  password : Option String
  uid : Option String
  login : Option String
  token : Option String
  twofa : Option String

/-- Model of a constructed ccxt exchange client: which optional capabilities
it exposes, and the outcome (resolution or rejection) of invoking the single
upstream operation the handler under consideration dispatches to. -/
structure ClientModel where
  hasFetchStatus : Bool
  hasDeposit : Bool
  invoke : Except ErrVal JsonValue

/-- The ccxt registry: maps an exchange id to its constructor when the id
names a known exchange (`typeof ctor === 'function'`). -/
def Registry : Type := String → Option (CcxtOptions → ClientModel)

/-- JS truthiness guard `if (x) options.k = x` for optional string fields:
absent and empty strings are falsy and are not passed through. -/
def passIfTruthy (s : Option String) : Option String :=
  match s with
  | some v => if v == "" then none else some v
  | none => none

/-- Function `createExchange` (`src/exchangeFactory.ts` lines 25-58): look the id up in
the registry; when absent throw `new Error('Unsupported exchange: <id>')`
(an `Error` has name "Error"); otherwise construct the client from the
assembled options. -/
def createExchange (registry : Registry) (config : ExchangeConfig)
    (credentials : Option Credentials) : Except ErrVal ClientModel :=
  let exchange := config.exchange.getD ""
  match registry exchange with
  | none =>
      .error (.record (some (.str "Error"))
        (some (.str ("Unsupported exchange: " ++ exchange))))
  | some ctor =>
      let options : CcxtOptions :=
        { enableRateLimit := config.enable_rate_limit.getD true
          options := match passIfTruthy config.default_type with
            | some dt => [("defaultType", dt)]
            | none => []
          subaccount := passIfTruthy config.subaccount
          apiKey := passIfTruthy (credentials.bind Credentials.api_key)
          secret := passIfTruthy (credentials.bind Credentials.secret)
          password := passIfTruthy (credentials.bind Credentials.password)
          uid := passIfTruthy (credentials.bind Credentials.uid)
          login := passIfTruthy (credentials.bind Credentials.login)
          token := passIfTruthy (credentials.bind Credentials.token)
          twofa := passIfTruthy (credentials.bind Credentials.twofa) }
      .ok (ctor options)

/-- JS falsiness of `!config?.exchange`: config absent, field absent, or the
empty string. -/
def configExchangeFalsy (config : Option ExchangeConfig) : Bool :=
  match config with
  | none => true
  | some c =>
    match c.exchange with
    | none => true
    | some s => s == ""

/-- The `InvalidArgumentsError` thrown by `ensureExchange` (`src/service.ts`
lines 16-21): name "InvalidArguments", message "config.exchange is required". -/
def invalidArgumentsError : ErrVal :=
  .record (some (.str "InvalidArguments")) (some (.str "config.exchange is required"))

/-- Function `ensureExchange` (`src/service.ts` lines 80-86): throw
`InvalidArgumentsError` when `!config?.exchange`, else construct the client. -/
def ensureExchange (registry : Registry) (config : Option ExchangeConfig)
    (credentials : Option Credentials) : Except ErrVal ClientModel :=
  if configExchangeFalsy config then .error invalidArgumentsError
  else
    match config with
    | some c => createExchange registry c credentials
    | none => .error invalidArgumentsError

/-- Observable outcome of one handler run: the callback payload (`data` on
success, the classified `error` on failure), whether an exchange client was
constructed, and how many upstream operation invocations were attempted. -/
structure HandlerOutcome where
  data : Option JsonValue
  error : Option ErrorOutcome
  clientConstructed : Bool
  upstreamCalls : Nat

/-- Common shape of the 17 handlers without a capability guard
(`src/service.ts`): `ensureExchange` inside `try`, await the upstream
operation, `ok` with the data or `fail` with the classified error. -/
def handleGeneric (registry : Registry) (config : Option ExchangeConfig)
    (credentials : Option Credentials) : HandlerOutcome :=
  match ensureExchange registry config credentials with
  | .error e => ⟨none, some (mapCcxtErrorToGrpc e), false, 0⟩
  | .ok client =>
      match client.invoke with
      | .ok d => ⟨some d, none, true, 1⟩
      | .error e => ⟨none, some (mapCcxtErrorToGrpc e), true, 1⟩

/-- The `fetchStatus` handler (`src/service.ts` lines 198-218) with its
`!ex.fetchStatus` capability guard. -/
def handleFetchStatus (registry : Registry) (config : Option ExchangeConfig)
    (credentials : Option Credentials) : HandlerOutcome :=
  match ensureExchange registry config credentials with
  | .error e => ⟨none, some (mapCcxtErrorToGrpc e), false, 0⟩
  | .ok client =>
      if !client.hasFetchStatus then
        ⟨none, some ⟨12, "fetchStatus not supported by this exchange"⟩, true, 0⟩
      else
        match client.invoke with
        | .ok d => ⟨some d, none, true, 1⟩
        | .error e => ⟨none, some (mapCcxtErrorToGrpc e), true, 1⟩

/-- The `deposit` handler (`src/service.ts` lines 351-372) with its `!ex.deposit`
capability guard. -/
def handleDeposit (registry : Registry) (config : Option ExchangeConfig)
    (credentials : Option Credentials) : HandlerOutcome :=
  match ensureExchange registry config credentials with
  | .error e => ⟨none, some (mapCcxtErrorToGrpc e), false, 0⟩
  | .ok client =>
      if !client.hasDeposit then
        ⟨none, some ⟨12, "deposit not supported by this exchange"⟩, true, 0⟩
      else
        match client.invoke with
        | .ok d => ⟨some d, none, true, 1⟩
        | .error e => ⟨none, some (mapCcxtErrorToGrpc e), true, 1⟩

/- --------------------------------- Theorems --------------------------------- -/

/-- C1: Round-trip law of the structured-value codec: for every `JsonValue` v
(null, boolean, finite number — numbers are modelled as rationals, hence finite
by construction — string, array of such, or string-keyed object of such),
decoding the encoding of v yields v, i.e.
`valueMsgToPlain (jsonToValue v) = v`, including nested arrays and objects,
empty arrays, and empty objects. -/
theorem decode_encode_roundtrip : ∀ v : JsonValue, valueMsgToPlain (jsonToValue v) = v :=
  valueMsg_roundtrip_aux

/-- C9: The decoder accepts both representations of a list-tagged wire value
interchangeably: for every list of wire values vs, decoding a wire value whose
`listValue` is the bare list vs yields the same `JsonValue` array as decoding a
wire value whose `listValue` is a wrapper object with a `values` field holding
vs, namely the array of the recursively decoded elements in order. -/
theorem decode_list_reps_agree (vs : List ValueMsg) :
    valueMsgToPlain (.mk none none none none none (some (.bare vs))) =
      valueMsgToPlain (.mk none none none none none (some (.wrapper (some vs)))) ∧
    valueMsgToPlain (.mk none none none none none (some (.bare vs))) =
      .arr (valuesToPlain vs) := by
  constructor <;> simp [valueMsgToPlain]

/-- C10: the decoder `valueMsgToPlain` resolves multiply-tagged wire values by the fixed
tag precedence `nullValue`, `numberValue`, `stringValue`, `boolValue`,
`structValue`, `listValue` — whenever a tag is populated and all earlier tags
are not, the result is that tag's decoding regardless of all later tags — and
a wire value with none of the known tags populated decodes to null. -/
theorem decode_tag_precedence :
    (∀ (n : Nat) (numv : Option Rat) (sv : Option String) (bv : Option Bool)
        (stv : Option StructMsg) (lv : Option ListRep),
        valueMsgToPlain (.mk (some n) numv sv bv stv lv) = .null) ∧
    (∀ (q : Rat) (sv : Option String) (bv : Option Bool)
        (stv : Option StructMsg) (lv : Option ListRep),
        valueMsgToPlain (.mk none (some q) sv bv stv lv) = .num q) ∧
    (∀ (s : String) (bv : Option Bool) (stv : Option StructMsg)
        (lv : Option ListRep),
        valueMsgToPlain (.mk none none (some s) bv stv lv) = .str s) ∧
    (∀ (b : Bool) (stv : Option StructMsg) (lv : Option ListRep),
        valueMsgToPlain (.mk none none none (some b) stv lv) = .bool b) ∧
    (∀ (st : StructMsg) (lv : Option ListRep),
        valueMsgToPlain (.mk none none none none (some st) lv) = structMsgToPlain st) ∧
    valueMsgToPlain (.mk none none none none none none) = .null := by
  refine ⟨?_, ?_, ?_, ?_, ?_, rfl⟩ <;> intros <;> simp [valueMsgToPlain]

/-- Unfolding of the spec-side classifier into the code's if-chain shape. -/
theorem specClassifyCode_eq (nm : String) :
    specClassifyCode nm =
      if strContains nm "Authentication" then 16
      else if strContains nm "Permission" then 7
      else if strContains nm "Invalid" then 3
      else if strContains nm "NotSupported" || strContains nm "NotImplemented" then 12
      else if strContains nm "OrderNotFound" then 5
      else if strContains nm "InsufficientFunds" then 9
      else if strContains nm "DDoS" || strContains nm "Network" ||
          strContains nm "RequestTimeout" then 14
      else 2 := by
  unfold specClassifyCode specRules
  cases hA : strContains nm "Authentication" <;>
  cases hP : strContains nm "Permission" <;>
  cases hI : strContains nm "Invalid" <;>
  cases hNS : strContains nm "NotSupported" <;>
  cases hNI : strContains nm "NotImplemented" <;>
  cases hOF : strContains nm "OrderNotFound" <;>
  cases hIF : strContains nm "InsufficientFunds" <;>
  cases hD : strContains nm "DDoS" <;>
  cases hN : strContains nm "Network" <;>
  cases hR : strContains nm "RequestTimeout" <;>
  simp [List.find?, List.any, hA, hP, hI, hNS, hNI, hOF, hIF, hD, hN, hR]

/-- C2: the code returned by `mapCcxtErrorToGrpc` equals, for every input, the
code assigned by the spec's ordered case-sensitive first-match-wins substring
table applied to the extracted name — in particular, for a name matching
several rules the earliest matching rule decides. -/
theorem classifier_code_first_match (err : ErrVal) :
    (mapCcxtErrorToGrpc err).code = specClassifyCode (extractNameStr err) := by
  rw [specClassifyCode_eq]
  simp only [mapCcxtErrorToGrpc]
  split_ifs <;> rfl

/-- C3 counterexample: the code passes an empty-string message through
unchanged — classifying an error whose message is `""` yields the message `""`,
not the literal "Unknown error" the claim requires. -/
theorem classifier_empty_message_not_replaced :
    (mapCcxtErrorToGrpc (.record none (some (.str "")))).message = "" ∧
      ("" : String) ≠ "Unknown error" :=
  ⟨rfl, by decide⟩

/-- C3 amended: the returned message equals the input's message field whenever
that field is string-typed — including the empty string — and equals
"Unknown error" exactly when the message field is absent or not a string. -/
theorem classifier_message_passthrough (err : ErrVal) :
    (mapCcxtErrorToGrpc err).message = extractMsgStr err := by
  simp only [mapCcxtErrorToGrpc]
  split_ifs <;> rfl

/-- C4 counterexample: `{name: "AuthenticationError"}` with no message field
is not an object-like value with string-typed name and message fields, yet the
classifier returns code 16 (UNAUTHENTICATED), not code 2 (UNKNOWN) as the
claim requires. -/
theorem classifier_missing_message_not_unknown :
    mapCcxtErrorToGrpc (.record (some (.str "AuthenticationError")) none) =
      ⟨16, "Unknown error"⟩ ∧ (16 : Nat) ≠ 2 :=
  ⟨rfl, by decide⟩

/-- C4 amended: the classifier is total — every input yields an outcome whose
code is one of the eight reachable status codes — and every input that is not
object-like (such as a bare string, a number, null or undefined) yields code 2
(UNKNOWN) with message "Unknown error". -/
theorem classifier_total_nonrecord_unknown :
    (∀ err : ErrVal, (mapCcxtErrorToGrpc err).code ∈ [16, 7, 3, 12, 5, 9, 14, 2]) ∧
    mapCcxtErrorToGrpc .nonRecord = ⟨2, "Unknown error"⟩ := by
  refine ⟨fun err => ?_, rfl⟩
  simp only [mapCcxtErrorToGrpc]
  split_ifs <;> simp

/-- C5: for every sequence of numeric rows, `toOhlcv` returns a sequence of
the exact same length in the same order (no filtering), where the i-th record
is built from positions 0..5 of the i-th row with any missing position
defaulting to 0, the timestamp (position 0) truncated toward zero to an
integer, and positions 1..5 taken as numeric values with no rounding; an
absent input sequence is treated as empty. -/
theorem toOhlcv_spec :
    toOhlcv none = [] ∧
    ∀ rows : List (List Rat),
      (toOhlcv (some rows)).length = rows.length ∧
      ∀ (i : Nat) (row : List Rat), rows.get? i = some row →
        (toOhlcv (some rows)).get? i = some
          { timestamp := mathTrunc ((row.get? 0).getD 0)
            open_ := (row.get? 1).getD 0
            high := (row.get? 2).getD 0
            low := (row.get? 3).getD 0
            close := (row.get? 4).getD 0
            volume := (row.get? 5).getD 0 } := by
  refine ⟨rfl, fun rows => ⟨by simp [toOhlcv], fun i row h => ?_⟩⟩
  have h' : rows[i]? = some row := by simpa [List.get?_eq_getElem?] using h
  simp [toOhlcv, List.getElem?_map, h']

/-- C5 witness: evaluation of `toOhlcv` on the single short row `[3/2, 1, 2, 3]` — positions
4 and 5 default to 0 and the timestamp 3/2 truncates to 1. -/
theorem toOhlcv_spec_witness :
    ([[(3 : Rat)/2, 1, 2, 3]] : List (List Rat)).get? 0 = some [(3 : Rat)/2, 1, 2, 3] ∧
    (toOhlcv (some [[(3 : Rat)/2, 1, 2, 3]])).get? 0 = some ⟨1, 1, 2, 3, 0, 0⟩ := by
  refine ⟨rfl, ?_⟩
  have h := (toOhlcv_spec.2 [[(3 : Rat)/2, 1, 2, 3]]).2 0 [(3 : Rat)/2, 1, 2, 3] rfl
  rw [h]
  norm_num [mathTrunc]

/-- C6: for every handler shape (the generic one shared by the 17 handlers
without a capability guard, and the two capability-guarded handlers), every
registry and credentials, and every request whose exchange-selection block is
absent or whose exchange id field is missing or empty, the handler responds
with the INVALID_ARGUMENT (3) error "config.exchange is required" and no data;
the exchange client is never constructed and no upstream call is attempted. -/
theorem missing_exchange_invalid_argument (registry : Registry)
    (config : Option ExchangeConfig) (credentials : Option Credentials)
    (h : configExchangeFalsy config = true) :
    handleGeneric registry config credentials =
      ⟨none, some ⟨3, "config.exchange is required"⟩, false, 0⟩ ∧
    handleFetchStatus registry config credentials =
      ⟨none, some ⟨3, "config.exchange is required"⟩, false, 0⟩ ∧
    handleDeposit registry config credentials =
      ⟨none, some ⟨3, "config.exchange is required"⟩, false, 0⟩ := by
  have he : ensureExchange registry config credentials = .error invalidArgumentsError := by
    simp [ensureExchange, h]
  have hm : mapCcxtErrorToGrpc invalidArgumentsError =
      ⟨3, "config.exchange is required"⟩ := by decide
  refine ⟨?_, ?_, ?_⟩ <;>
    simp [handleGeneric, handleFetchStatus, handleDeposit, he, hm]

/-- C6 witness: the request with no config block at all, against an empty
registry. -/
theorem missing_exchange_invalid_argument_witness :
    configExchangeFalsy none = true ∧
    handleGeneric (fun _ => none) none none =
      ⟨none, some ⟨3, "config.exchange is required"⟩, false, 0⟩ :=
  ⟨rfl, (missing_exchange_invalid_argument (fun _ => none) none none rfl).1⟩

/-- C7: for the two optional-capability operations `fetchStatus` and `deposit`:
whenever client construction succeeds but the constructed client does not
expose the operation, the handler responds with UNIMPLEMENTED (12) and the
descriptive message, and zero upstream invocation attempts are made. -/
theorem capability_guard_unimplemented (registry : Registry)
    (config : Option ExchangeConfig) (credentials : Option Credentials)
    (client : ClientModel)
    (h : ensureExchange registry config credentials = .ok client) :
    (client.hasFetchStatus = false →
      handleFetchStatus registry config credentials =
        ⟨none, some ⟨12, "fetchStatus not supported by this exchange"⟩, true, 0⟩) ∧
    (client.hasDeposit = false →
      handleDeposit registry config credentials =
        ⟨none, some ⟨12, "deposit not supported by this exchange"⟩, true, 0⟩) := by
  constructor <;> intro hc <;>
    simp [handleFetchStatus, handleDeposit, h, hc]

/-- C7 witness: a registry exposing one exchange whose client exposes neither
optional capability. -/
theorem capability_guard_unimplemented_witness :
    ensureExchange (fun _ => some (fun _ => ⟨false, false, .ok .null⟩))
        (some ⟨some "binance", none, none, none⟩) none =
      .ok ⟨false, false, .ok .null⟩ ∧
    handleFetchStatus (fun _ => some (fun _ => ⟨false, false, .ok .null⟩))
        (some ⟨some "binance", none, none, none⟩) none =
      ⟨none, some ⟨12, "fetchStatus not supported by this exchange"⟩, true, 0⟩ ∧
    handleDeposit (fun _ => some (fun _ => ⟨false, false, .ok .null⟩))
        (some ⟨some "binance", none, none, none⟩) none =
      ⟨none, some ⟨12, "deposit not supported by this exchange"⟩, true, 0⟩ := by
  refine ⟨rfl, ?_, ?_⟩
  · exact (capability_guard_unimplemented (fun _ => some (fun _ => ⟨false, false, .ok .null⟩))
      (some ⟨some "binance", none, none, none⟩) none ⟨false, false, .ok .null⟩ rfl).1 rfl
  · exact (capability_guard_unimplemented (fun _ => some (fun _ => ⟨false, false, .ok .null⟩))
      (some ⟨some "binance", none, none, none⟩) none ⟨false, false, .ok .null⟩ rfl).2 rfl

/-- C8: for every request whose exchange-selection names a nonempty identifier
not present in the registry, client construction throws
`Error('Unsupported exchange: <id>')`; each handler surfaces the classified
wire error — code UNKNOWN (2), since the thrown error's name "Error" matches
none of the classification substrings — with message
"Unsupported exchange: <id>", no data, and no upstream call. -/
theorem unknown_exchange_unknown_code (registry : Registry)
    (cfg : ExchangeConfig) (credentials : Option Credentials) (ex : String)
    (hex : cfg.exchange = some ex) (hne : ex ≠ "") (hreg : registry ex = none) :
    handleGeneric registry (some cfg) credentials =
      ⟨none, some ⟨2, "Unsupported exchange: " ++ ex⟩, false, 0⟩ ∧
    handleFetchStatus registry (some cfg) credentials =
      ⟨none, some ⟨2, "Unsupported exchange: " ++ ex⟩, false, 0⟩ ∧
    handleDeposit registry (some cfg) credentials =
      ⟨none, some ⟨2, "Unsupported exchange: " ++ ex⟩, false, 0⟩ := by
  have hfalsy : configExchangeFalsy (some cfg) = false := by
    simp [configExchangeFalsy, hex, hne]
  have hcreate : createExchange registry cfg credentials =
      .error (.record (some (.str "Error"))
        (some (.str ("Unsupported exchange: " ++ ex)))) := by
    simp [createExchange, hex, hreg]
  have h1 : strContains "Error" "Authentication" = false := by decide
  have h2 : strContains "Error" "Permission" = false := by decide
  have h3 : strContains "Error" "Invalid" = false := by decide
  have h4 : strContains "Error" "NotSupported" = false := by decide
  have h5 : strContains "Error" "NotImplemented" = false := by decide
  have h6 : strContains "Error" "OrderNotFound" = false := by decide
  have h7 : strContains "Error" "InsufficientFunds" = false := by decide
  have h8 : strContains "Error" "DDoS" = false := by decide
  have h9 : strContains "Error" "Network" = false := by decide
  have h10 : strContains "Error" "RequestTimeout" = false := by decide
  have hmap : mapCcxtErrorToGrpc (.record (some (.str "Error"))
      (some (.str ("Unsupported exchange: " ++ ex)))) =
      ⟨2, "Unsupported exchange: " ++ ex⟩ := by
    simp [mapCcxtErrorToGrpc, extractNameStr, extractMsgStr,
      h1, h2, h3, h4, h5, h6, h7, h8, h9, h10]
  refine ⟨?_, ?_, ?_⟩ <;>
    simp [handleGeneric, handleFetchStatus, handleDeposit, ensureExchange,
      hfalsy, hcreate, hmap]

/-- C8 witness: the id "kraken" against an empty registry. -/
theorem unknown_exchange_unknown_code_witness :
    (⟨some "kraken", none, none, none⟩ : ExchangeConfig).exchange = some "kraken" ∧
    ("kraken" : String) ≠ "" ∧
    ((fun _ => none) : Registry) "kraken" = none ∧
    handleGeneric (fun _ => none) (some ⟨some "kraken", none, none, none⟩) none =
      ⟨none, some ⟨2, "Unsupported exchange: kraken"⟩, false, 0⟩ := by
  refine ⟨rfl, by decide, rfl, ?_⟩
  exact (unknown_exchange_unknown_code (fun _ => none)
    ⟨some "kraken", none, none, none⟩ none "kraken" rfl (by decide) rfl).1

end CcxtMicro
